import Mathlib

/-!
# Verification of the Recommendation & Advisory Decision Engine

Shallow embedding of `backend/services/crop_service.py` and the crop-analysis
logic of `backend/main.py` (repository `Sagar-Bawankule/croprecommedation`),
together with theorems settling the specification's claims about it.

Numeric values are modelled as rationals (`ℚ`): every constant appearing in the
source is exactly representable, and all the arithmetic performed by the engine
(sums, products, divisions, comparisons) coincides with rational arithmetic on
such inputs.  Python dictionaries keyed by strings are modelled as association
lists `List (String × ℚ)` (iteration order = insertion order, keys unique).
-/

namespace CropRec

/-! ## Economic Reference Store

`CropRecommendationService.create_enhanced_economic_dataset`: one static row
per crop with cost, yield, price, type, season and water requirement. -/

structure CropEcon where
  name : String
  cost : ℚ              -- Cost_of_Cultivation_per_Hectare
  yieldVal : ℚ          -- Avg_Yield_per_Hectare
  price : ℚ             -- Avg_Market_Price_per_Quintal
  cropType : String     -- Crop_Type
  growingSeason : String
  waterReq : String
  deriving DecidableEq, Repr

def economicDf : List CropEcon := [
  ⟨"rice", 32000, 6, 2500, "cereal", "Kharif", "High"⟩,
  ⟨"maize", 22000, 11/2, 2000, "cereal", "Kharif", "Medium"⟩,
  ⟨"chickpea", 18000, 3/2, 5000, "legume", "Rabi", "Low"⟩,
  ⟨"kidneybeans", 20000, 9/5, 4800, "legume", "Kharif", "Medium"⟩,
  ⟨"pigeonpeas", 21000, 2, 4500, "legume", "Kharif", "Low"⟩,
  ⟨"mothbeans", 17000, 6/5, 4000, "legume", "Kharif", "Low"⟩,
  ⟨"mungbean", 18500, 7/5, 5200, "legume", "Kharif", "Low"⟩,
  ⟨"blackgram", 19000, 13/10, 5100, "legume", "Kharif", "Low"⟩,
  ⟨"lentil", 17500, 11/10, 4900, "legume", "Rabi", "Low"⟩,
  ⟨"pomegranate", 60000, 15, 8000, "fruit", "Year-round", "Medium"⟩,
  ⟨"banana", 75000, 50, 1500, "fruit", "Year-round", "High"⟩,
  ⟨"mango", 80000, 12, 3000, "fruit", "Year-round", "Medium"⟩,
  ⟨"grapes", 150000, 20, 4000, "fruit", "Year-round", "Medium"⟩,
  ⟨"watermelon", 25000, 30, 1200, "fruit", "Summer", "Medium"⟩,
  ⟨"muskmelon", 26000, 28, 1500, "fruit", "Summer", "Medium"⟩,
  ⟨"apple", 180000, 25, 6000, "fruit", "Year-round", "Medium"⟩,
  ⟨"orange", 70000, 22, 2500, "fruit", "Year-round", "Medium"⟩,
  ⟨"papaya", 55000, 40, 1800, "fruit", "Year-round", "Medium"⟩,
  ⟨"coconut", 90000, 10, 3500, "fruit", "Year-round", "High"⟩,
  ⟨"cotton", 24500, 5/2, 6000, "fiber", "Kharif", "Medium"⟩,
  ⟨"jute", 23000, 11/5, 3000, "fiber", "Kharif", "High"⟩,
  ⟨"coffee", 120000, 1, 15000, "beverage", "Year-round", "High"⟩]

/-- `crop in self.economic_df.index` / `self.economic_df.loc[crop]`:
keyed-row access into the reference store. -/
def econLookup (crop : String) : Option CropEcon :=
  economicDf.find? (fun e => e.name == crop)

/-- The crop names present in the reference store (the index of the table). -/
def econNames : List String := economicDf.map (·.name)

/-- Python `str.upper()` (ASCII, character-wise). -/
def strUpper (s : String) : String := ⟨s.data.map Char.toUpper⟩

/-- Python `str.lower()` (ASCII, character-wise). -/
def strLower (s : String) : String := ⟨s.data.map Char.toLower⟩

/-! ## Economic Ranking Engine

`get_crop_recommendations`, lines 115–149: join the candidate list coming from
the classifier with the reference store, compute profit/margin, apply the
budget filter, assign a status, and order the result. -/

/-- The status string: `"Recommended"` or `f"Over Budget (₹{cost-budget:,.0f})"`.
Modelled as an inductive carrying the exact over-budget amount (the source
string carries a formatted rendering of `cost - budget`). -/
inductive Status where
  | Recommended : Status
  | OverBudget : ℚ → Status
  deriving DecidableEq, Repr

structure Recommendation where
  crop : String
  agronomic_score : ℚ       -- the raw probability (rendered f"{prob:.2%}")
  estimated_cost : ℚ
  estimated_profit : Option ℚ  -- `none` models the "N/A" string
  profit_margin : ℚ
  status : Status
  growing_season : String
  water_requirement : String
  deriving DecidableEq, Repr

/-- The body of the `for crop, prob in zip(top_crops, top_probs)` loop for a
crop found in the reference store (lines 119–140). -/
def mkRecommendation (budget : ℚ) (crop : String) (prob : ℚ) (cd : CropEcon) :
    Recommendation :=
  let revenue := cd.yieldVal * cd.price * 10  -- 1 tonne = 10 quintals
  let profit := revenue - cd.cost
  let profit_margin := if revenue > 0 then profit / revenue * 100 else 0
  { crop := crop
    agronomic_score := prob
    estimated_cost := cd.cost
    estimated_profit := if cd.cost ≤ budget then some profit else none
    profit_margin := if cd.cost ≤ budget then profit_margin else 0
    status := if cd.cost ≤ budget then .Recommended else .OverBudget (cd.cost - budget)
    growing_season := cd.growingSeason
    water_requirement := cd.waterReq }

/-- The `recommendations` list after the loop: candidates absent from the
reference store are skipped. -/
def candidateRecs (cands : List (String × ℚ)) (budget : ℚ) : List Recommendation :=
  cands.filterMap (fun cp => (econLookup cp.1).map (mkRecommendation budget cp.1 cp.2))

/-- `r['status'] == 'Recommended'` (the over-budget status string never equals
`"Recommended"`). -/
def isRec (r : Recommendation) : Bool :=
  match r.status with
  | .Recommended => true
  | .OverBudget _ => false

/-- Stable insertion of `x` into a list, placing `x` before the first element
whose `profit_margin` is `≤ x`'s (so an earlier input element precedes later
elements of equal margin). -/
def insertDesc (x : Recommendation) : List Recommendation → List Recommendation
  | [] => [x]
  | y :: ys => if y.profit_margin ≤ x.profit_margin then x :: y :: ys
               else y :: insertDesc x ys

/-- `recommended.sort(key=lambda x: x['profit_margin'], reverse=True)` —
Python's stable descending sort, realised as a stable insertion sort (the
unique permutation that is sorted descending by margin and preserves the
input order of equal-margin elements; stability is proved below). -/
def sortDesc : List Recommendation → List Recommendation
  | [] => []
  | x :: xs => insertDesc x (sortDesc xs)

/-- Lines 143–149: partition on the status string, sort the recommended part
by profit margin descending, append the rest in input order. -/
def rankCandidates (cands : List (String × ℚ)) (budget : ℚ) : List Recommendation :=
  let recs := candidateRecs cands budget
  sortDesc (recs.filter isRec) ++ recs.filter (fun r => !(isRec r))

/-! ## Agronomic Suitability Selector

Lines 101–108: `np.argsort(probabilities)[0][-5:][::-1]` picks the indices of
the five largest probabilities, then `label_encoder.inverse_transform` maps
them to crop labels — raising (sklearn `ValueError`, "unseen labels") when an
index falls outside the label set, which happens when the classifier's output
vector is longer than the label set.  The whole block sits in a `try/except`
that returns `[]` on any exception (lines 111–113). -/

/-- The classifier's fixed, totally-ordered label set (`label_encoder.classes_`:
the sorted crop labels of the training data; same 22 crops as the reference
store). -/
def cropLabels : List String :=
  ["apple", "banana", "blackgram", "chickpea", "coconut", "coffee", "cotton",
   "grapes", "jute", "kidneybeans", "lentil", "maize", "mango", "mothbeans",
   "mungbean", "muskmelon", "orange", "papaya", "pigeonpeas", "pomegranate",
   "rice", "watermelon"]

/-- Insert index `i` into an index list sorted descending by probability,
after all indices of strictly greater value (ties keep the earlier index
first). -/
def insertIdxDesc (probs : List ℚ) (i : ℕ) : List ℕ → List ℕ
  | [] => [i]
  | j :: js => if probs.getD i 0 < probs.getD j 0 then j :: insertIdxDesc probs i js
               else i :: j :: js

/-- Indices of `probs` sorted by value descending
(`np.argsort(...)[0][-5:][::-1]` before the `take`). -/
def argsortDesc (probs : List ℚ) : List ℕ :=
  (List.range probs.length).foldr (insertIdxDesc probs) []

/-- `np.argsort(probabilities)[0][-5:][::-1]`: the indices of the (up to) five
largest probabilities, value-descending. -/
def topIndices (probs : List ℚ) : List ℕ := (argsortDesc probs).take 5

/-- `label_encoder.inverse_transform(top_indices)` zipped with
`probabilities[0][top_indices]`: errors (sklearn `ValueError`) when a selected
index lies outside the label set. -/
def selectTop5 (probs : List ℚ) : Except String (List (String × ℚ)) :=
  let idxs := topIndices probs
  if idxs.all (fun i => i < cropLabels.length) then
    .ok (idxs.map (fun i => (cropLabels.getD i "", probs.getD i 0)))
  else
    .error "y contains previously unseen labels"

/-- `get_crop_recommendations` as seen by its caller, parametrised by the
classifier's probability vector: the `try/except` around the selection step
turns any error into an empty recommendation list (lines 111–113). -/
def get_crop_recommendations (probs : List ℚ) (budget : ℚ) : List Recommendation :=
  match selectTop5 probs with
  | .error _ => []
  | .ok cands => rankCandidates cands budget

/-! ## Soil Treatment Rule Engine

`analyze_soil_treatment`, lines 151–216. -/

structure OptimalRange where
  min : ℚ
  max : ℚ
  unit : String
  deriving DecidableEq, Repr

/-- The `optimal_ranges` table (lines 156–163). -/
def optimalRanges (param : String) : Option OptimalRange :=
  if param = "N" then some ⟨40, 80, "kg/ha"⟩
  else if param = "P" then some ⟨30, 60, "kg/ha"⟩
  else if param = "K" then some ⟨40, 80, "kg/ha"⟩
  else if param = "ph" then some ⟨6, 15/2, "pH"⟩
  else if param = "humidity" then some ⟨40, 70, "%"⟩
  else if param = "temperature" then some ⟨20, 30, "°C"⟩
  else none

/-- One `low`/`high` entry of the `treatment_suggestions` table:
(treatment, fertilizer). -/
structure SuggestionPair where
  low : String × String
  high : String × String
  deriving DecidableEq, Repr

/-- The `treatment_suggestions` table (lines 166–183).  Note: it has entries
only for N, P, K and ph — `humidity` and `temperature` are missing. -/
def treatmentSuggestions (param : String) : Option SuggestionPair :=
  if param = "N" then some ⟨("Apply nitrogen-rich fertilizer", "Urea (46-0-0) at 100-150 kg/ha"),
    ("Reduce nitrogen application", "Skip nitrogen fertilizer this season")⟩
  else if param = "P" then some ⟨("Apply phosphorus fertilizer", "DAP (18-46-0) at 100-125 kg/ha"),
    ("Reduce phosphorus application", "Use low-P fertilizers")⟩
  else if param = "K" then some ⟨("Apply potassium fertilizer", "MOP (0-0-60) at 80-100 kg/ha"),
    ("Reduce potassium application", "Use balanced NPK fertilizers")⟩
  else if param = "ph" then some ⟨("Apply lime to increase pH", "Agricultural lime at 500-1000 kg/ha"),
    ("Apply sulfur to decrease pH", "Elemental sulfur at 100-200 kg/ha")⟩
  else none

structure Treatment where
  parameter : String          -- param.upper()
  current_value : ℚ
  optimal_range : OptimalRange
  treatment_suggestion : String
  fertilizer_recommendation : String
  deriving DecidableEq, Repr

def mkTreatment (param : String) (value : ℚ) (o : OptimalRange)
    (sugg : String × String) : Treatment :=
  { parameter := strUpper param
    current_value := value
    optimal_range := o
    treatment_suggestion := sugg.1
    fertilizer_recommendation := sugg.2 }

/-- `treatments.append(...)` under an exception-transparent recursion: a later
`KeyError` discards the directives accumulated so far, as in the source. -/
def consTreatment (t : Treatment) :
    Except String (List Treatment) → Except String (List Treatment)
  | .error e => .error e
  | .ok ts => .ok (t :: ts)

/-- The loop of `analyze_soil_treatment` (lines 185–215).  A `.error p` models
the Python `KeyError: p` raised by `treatment_suggestions[p]` when the table
has no entry for `p`; it aborts the whole call. -/
def analyze_soil_treatment : List (String × ℚ) → Except String (List Treatment)
  | [] => .ok []
  | (param, value) :: rest =>
    match optimalRanges param with
    | none => analyze_soil_treatment rest
    | some o =>
      if value < o.min then
        match treatmentSuggestions param with
        | none => .error param
        | some sugg => consTreatment (mkTreatment param value o sugg.low)
            (analyze_soil_treatment rest)
      else if o.max < value ∧ (param = "N" ∨ param = "P" ∨ param = "K" ∨ param = "ph") then
        match treatmentSuggestions param with
        | none => .error param
        | some sugg => consTreatment (mkTreatment param value o sugg.high)
            (analyze_soil_treatment rest)
      else analyze_soil_treatment rest

/-! ## Rotation Planner

`generate_rotation_plan`, lines 218–305. -/

structure RotationStep where
  year : ℕ
  season : String
  recommended_crop : String
  crop_type : String
  benefits : List String
  estimated_profit : ℚ
  deriving DecidableEq, Repr

/-- The `rotation_sequences` table with its `.get(..., ['legume','cereal','fruit'])`
default (lines 227–233, 245). -/
def rotationSequence (cropType : String) : List String :=
  if cropType = "cereal" then ["legume", "vegetable", "cereal"]
  else if cropType = "legume" then ["cereal", "fruit", "legume"]
  else if cropType = "fruit" then ["legume", "cereal", "fruit"]
  else if cropType = "fiber" then ["legume", "cereal", "fiber"]
  else if cropType = "beverage" then ["legume", "vegetable", "beverage"]
  else ["legume", "cereal", "fruit"]

/-- The `crop_by_type` table with its `.get(next_type, ['rice'])` default
(lines 236–243, 249). -/
def cropByType (t : String) : List String :=
  if t = "cereal" then ["rice", "maize"]
  else if t = "legume" then ["chickpea", "lentil", "mungbean", "blackgram"]
  else if t = "vegetable" then ["watermelon", "muskmelon", "papaya"]
  else if t = "fruit" then ["banana", "mango", "grapes", "orange"]
  else if t = "fiber" then ["cotton", "jute"]
  else if t = "beverage" then ["coffee"]
  else ["rice"]

/-- The `benefits_map` with its `.get(..., ['Crop diversification'])` default
(lines 276–283, 299). -/
def benefitsMap (t : String) : List String :=
  if t = "cereal" then ["Provides staple grain", "Good market demand", "Moderate water requirement"]
  else if t = "legume" then ["Nitrogen fixation", "Soil fertility improvement", "Low water requirement"]
  else if t = "fruit" then ["High market value", "Long-term investment", "Orchard development"]
  else if t = "vegetable" then ["Quick returns", "High nutrition value", "Market flexibility"]
  else if t = "fiber" then ["Industrial demand", "Good export potential", "Drought tolerance"]
  else if t = "beverage" then ["Premium pricing", "Export opportunity", "Sustainable farming"]
  else ["Crop diversification"]

/-- `profit = (yield_val * price * 10) - cost` for a crop of the store. -/
def profitOf (cd : CropEcon) : ℚ := cd.yieldVal * cd.price * 10 - cd.cost

/-- The year ≥ 2 selection loop (lines 257–270): start from
`best_crop = available_crops[0]`, `best_profit = 0`; a candidate found in the
store replaces the incumbent only when its profit is strictly greater.
(`available_crops` is never empty in the reference configuration, so the
`headD` default is never used.) -/
def bestCrop (avail : List String) : String :=
  (avail.foldl
    (fun acc crop =>
      match econLookup crop with
      | none => acc
      | some cd => if acc.2 < profitOf cd then (crop, profitOf cd) else acc)
    (avail.headD "", (0 : ℚ))).1

/-- One iteration of `for year, next_type in enumerate(sequence, 1)`
(lines 247–303). -/
def mkRotationStep (primary : String) (primaryType : String) (year : ℕ)
    (nextType : String) : RotationStep :=
  let selected : String × String :=
    if year = 1 then (primary, primaryType)
    else (bestCrop (cropByType nextType), nextType)
  let estimated_profit : ℚ :=
    match econLookup selected.1 with
    | some cd => profitOf cd
    | none => 0
  { year := year
    season := if year % 2 = 1 then "Kharif" else "Rabi"
    recommended_crop := selected.1
    crop_type := selected.2
    benefits := benefitsMap selected.2
    estimated_profit := max 0 estimated_profit }

/-- `generate_rotation_plan` (lines 218–305).  `if not primary_crop` is the
Python falsiness test on the string, i.e. `primary = ""`. -/
def generate_rotation_plan (primary : String) : List RotationStep :=
  if primary = "" then []
  else
    match econLookup primary with
    | none => []
    | some cd =>
      (rotationSequence cd.cropType).enum.map
        (fun it => mkRotationStep primary cd.cropType (it.1 + 1) it.2)

/-! ## Advisory Generator

`generate_crop_advisory`, lines 307–352.  The forecast aggregates are
rational means/sums; the `soil_data` argument is unused by the source. -/

structure ForecastDay where
  temperature_max : ℚ
  temperature_min : ℚ
  rainfall : ℚ
  humidity : ℚ
  deriving DecidableEq, Repr

/-- `np.mean([w['temperature_max'] for w in weather_forecast[:3]])`.
(For an empty forecast the source computes NaN; the ℚ model is only used
under a non-emptiness hypothesis.) -/
def avgTempMax (fc : List ForecastDay) : ℚ :=
  ((fc.take 3).map (·.temperature_max)).sum / ((fc.take 3).length : ℚ)

/-- `sum([w['rainfall'] for w in weather_forecast[:7]])`. -/
def totalRainfall (fc : List ForecastDay) : ℚ :=
  ((fc.take 7).map (·.rainfall)).sum

/-- `np.mean([w['humidity'] for w in weather_forecast[:3]])`. -/
def avgHumidity (fc : List ForecastDay) : ℚ :=
  ((fc.take 3).map (·.humidity)).sum / ((fc.take 3).length : ℚ)

def heatAlertMsg : String := "High temperature warning - Consider heat-resistant crops"

def coldAlertMsg : String := "Low temperature warning - Protect crops from cold"

def drainageAlertMsg : String := "Heavy rainfall expected - Ensure proper drainage"

def irrigationAlertMsg : String := "Low rainfall forecast - Plan irrigation"

structure Advisory where
  weather_alert : Option String
  planting_recommendation : String
  irrigation_advice : String
  pest_warning : Option String
  harvest_timing : String
  deriving DecidableEq, Repr

def generate_crop_advisory (fc : List ForecastDay) (_soil : List (String × ℚ)) :
    Advisory :=
  let avg_temp := avgTempMax fc
  let total_rainfall := totalRainfall fc
  let avg_humidity := avgHumidity fc
  { weather_alert :=
      if avg_temp > 35 then some heatAlertMsg
      else if avg_temp < 15 then some coldAlertMsg
      else if total_rainfall > 100 then some drainageAlertMsg
      else if total_rainfall < 10 then some irrigationAlertMsg
      else none
    planting_recommendation :=
      if 20 ≤ avg_temp ∧ avg_temp ≤ 30 ∧ 20 ≤ total_rainfall ∧ total_rainfall ≤ 60 then
        "Excellent conditions for planting"
      else if avg_temp > 30 then "Consider drought-resistant varieties"
      else "Monitor weather before planting"
    irrigation_advice :=
      if total_rainfall < 20 then "Increase irrigation frequency - weekly watering recommended"
      else if total_rainfall > 80 then "Reduce irrigation - risk of waterlogging"
      else "Normal irrigation schedule - bi-weekly watering"
    pest_warning :=
      if avg_humidity > 70 ∧ avg_temp > 25 then
        some "High risk of fungal diseases - apply preventive fungicides"
      else if avg_humidity < 40 then some "Watch for spider mites - monitor regularly"
      else none
    harvest_timing := "Monitor crop maturity - harvest during dry weather for better quality" }

/-! ## Feature assembly for the classifier

`get_crop_recommendations`, lines 94–96: the input DataFrame is rebuilt as
`{col: soil_params.get(col, 0) for col in expected_columns}` — a parameter
absent from `soil_params` is replaced by `0`. -/

/-- `soil_params.get(param)`: association-list lookup by exact key. -/
def lookupParam (soil : List (String × ℚ)) (param : String) : Option ℚ :=
  (soil.find? (fun e => e.1 == param)).map (·.2)

def expectedColumns : List String :=
  ["N", "P", "K", "temperature", "humidity", "ph", "rainfall"]

/-- `soil_params.get(col, 0)` (line 96). -/
def featureValue (soil : List (String × ℚ)) (col : String) : ℚ :=
  (lookupParam soil col).getD 0

/-- The feature row handed to `scaler.transform` / `model.predict_proba`. -/
def featureRow (soil : List (String × ℚ)) : List ℚ :=
  expectedColumns.map (featureValue soil)

/-! ## Suitability & Cost Estimator

`analyze_crop` in `backend/main.py`, lines 200–345.  The classifier behind
`get_crop_recommendations` is an external collaborator, so the analysis is
parametrised by its candidate output (the `(crop, probability)` pairs). -/

/-- Round a rational to the nearest integer, ties to even — the rounding used
by Python's fixed-precision string formatting. -/
def roundHalfEven (x : ℚ) : ℤ :=
  let f := ⌊x⌋
  let r := x - (f : ℚ)
  if r < 1/2 then f
  else if 1/2 < r then f + 1
  else if f % 2 = 0 then f else f + 1

/-- The round trip `float(f"{prob:.2%}".replace('%',''))` (crop_service line
133 formats, main.py lines 223–224 parse back): the probability × 100,
rounded to two decimal places. -/
def percent2 (prob : ℚ) : ℚ := (roundHalfEven (prob * 10000) : ℚ) / 100

/-- N sub-score (main.py lines 233–239). -/
def bucketN (v : ℚ) : ℚ :=
  if 40 ≤ v ∧ v ≤ 80 then 90 else if 30 ≤ v ∧ v ≤ 90 then 75 else 50

/-- P sub-score (lines 242–248). -/
def bucketP (v : ℚ) : ℚ :=
  if 30 ≤ v ∧ v ≤ 60 then 90 else if 20 ≤ v ∧ v ≤ 70 then 75 else 50

/-- K sub-score (lines 251–257). -/
def bucketK (v : ℚ) : ℚ :=
  if 40 ≤ v ∧ v ≤ 80 then 90 else if 30 ≤ v ∧ v ≤ 90 then 75 else 50

/-- ph sub-score (lines 260–266). -/
def bucketPh (v : ℚ) : ℚ :=
  if 6 ≤ v ∧ v ≤ 15/2 then 95 else if 11/2 ≤ v ∧ v ≤ 8 then 80 else 60

/-- temperature sub-score (lines 269–275). -/
def bucketTemp (v : ℚ) : ℚ :=
  if 20 ≤ v ∧ v ≤ 30 then 90 else if 15 ≤ v ∧ v ≤ 35 then 75 else 60

/-- The parameter-threshold fallback score (lines 230–281): the mean of the
five sub-scores, each parameter defaulting to a fixed midrange value when
absent.  `param_scores` always holds exactly five entries, so the final
average is their sum divided by 5 (the `base_score` branch is unreachable). -/
def fallbackScore (soil : List (String × ℚ)) : ℚ :=
  (bucketN ((lookupParam soil "N").getD 60)
   + bucketP ((lookupParam soil "P").getD 45)
   + bucketK ((lookupParam soil "K").getD 60)
   + bucketPh ((lookupParam soil "ph").getD (13/2))
   + bucketTemp ((lookupParam soil "temperature").getD 25)) / 5

/-- Lines 210–215: find the selected crop among the ranked recommendations
(budget fixed to 100000), comparing names after lowercasing both sides. -/
def findSelected (cropName : String) (cands : List (String × ℚ)) :
    Option Recommendation :=
  (rankCandidates cands 100000).find?
    (fun r => strLower r.crop == strLower cropName)

/-- The `suitability_score` computed by `analyze_crop` (lines 207–281). -/
def analyzeCropScore (cropName : String) (soil : List (String × ℚ))
    (cands : List (String × ℚ)) : ℚ :=
  match findSelected cropName cands with
  | some r => percent2 r.agronomic_score
  | none => fallbackScore soil

/-- `is_suitable = suitability_score >= 60.0` (line 284). -/
def analyzeCropSuitable (cropName : String) (soil : List (String × ℚ))
    (cands : List (String × ℚ)) : Bool :=
  60 ≤ analyzeCropScore cropName soil cands

/-! ## Properties of the stable descending sort -/

lemma insertDesc_perm (x : Recommendation) (l : List Recommendation) :
    List.Perm (insertDesc x l) (x :: l) := by
  induction l with
  | nil => exact List.Perm.refl _
  | cons y ys ih =>
    unfold insertDesc
    by_cases h : y.profit_margin ≤ x.profit_margin
    · rw [if_pos h]
    · rw [if_neg h]
      exact (ih.cons y).trans (List.Perm.swap x y ys)

lemma sortDesc_perm (l : List Recommendation) : List.Perm (sortDesc l) l := by
  induction l with
  | nil => exact List.Perm.refl _
  | cons x xs ih => exact (insertDesc_perm x (sortDesc xs)).trans (ih.cons x)

lemma mem_sortDesc {r : Recommendation} {l : List Recommendation} :
    r ∈ sortDesc l ↔ r ∈ l :=
  (sortDesc_perm l).mem_iff

lemma insertDesc_head? (x : Recommendation) (l : List Recommendation) :
    (insertDesc x l).head? = some x ∨ (insertDesc x l).head? = l.head? := by
  cases l with
  | nil => left; rfl
  | cons y ys =>
    unfold insertDesc
    by_cases h : y.profit_margin ≤ x.profit_margin
    · left; rw [if_pos h]; rfl
    · right; rw [if_neg h]; rfl

lemma chain'_insertDesc (x : Recommendation) (l : List Recommendation)
    (hl : List.Chain' (fun a b => b.profit_margin ≤ a.profit_margin) l) :
    List.Chain' (fun a b => b.profit_margin ≤ a.profit_margin) (insertDesc x l) := by
  induction l with
  | nil => simp [insertDesc]
  | cons y ys ih =>
    unfold insertDesc
    by_cases h : y.profit_margin ≤ x.profit_margin
    · rw [if_pos h]
      exact hl.cons h
    · rw [if_neg h]
      rcases List.chain'_cons'.mp hl with ⟨hhead, htail⟩
      refine List.chain'_cons'.mpr ⟨?_, ih htail⟩
      intro z hz
      rcases insertDesc_head? x ys with hh | hh
      · rw [hh, Option.mem_def, Option.some_inj] at hz
        exact hz ▸ le_of_not_le h
      · rw [hh] at hz
        exact hhead z hz

lemma chain'_sortDesc (l : List Recommendation) :
    List.Chain' (fun a b => b.profit_margin ≤ a.profit_margin) (sortDesc l) := by
  induction l with
  | nil => simp [sortDesc]
  | cons x xs ih => exact chain'_insertDesc x (sortDesc xs) ih

lemma insertDesc_filter_margin (x : Recommendation) (l : List Recommendation) (m : ℚ) :
    (insertDesc x l).filter (fun r => r.profit_margin == m)
      = if x.profit_margin = m
        then x :: l.filter (fun r => r.profit_margin == m)
        else l.filter (fun r => r.profit_margin == m) := by
  induction l with
  | nil =>
    by_cases hx : x.profit_margin = m <;> simp [insertDesc, hx]
  | cons y ys ih =>
    unfold insertDesc
    by_cases h : y.profit_margin ≤ x.profit_margin
    · rw [if_pos h]
      by_cases hx : x.profit_margin = m <;> simp [List.filter_cons, hx]
    · rw [if_neg h]
      by_cases hx : x.profit_margin = m
      · have hy : ¬ (y.profit_margin = m) := fun hy => h (le_of_eq (hy.trans hx.symm))
        simp [List.filter_cons, ih, hx, hy]
      · simp [List.filter_cons, ih, hx]

/-- Stability of the sort: the subsequence of entries having any fixed profit
margin is exactly the corresponding subsequence of the input. -/
lemma sortDesc_filter_margin (l : List Recommendation) (m : ℚ) :
    (sortDesc l).filter (fun r => r.profit_margin == m)
      = l.filter (fun r => r.profit_margin == m) := by
  induction l with
  | nil => rfl
  | cons x xs ih =>
    show (insertDesc x (sortDesc xs)).filter _ = _
    rw [insertDesc_filter_margin]
    by_cases hx : x.profit_margin = m <;> simp [List.filter_cons, hx, ih]

/-- Every entry of the ranking output arises from a candidate found in the
reference store. -/
lemma mem_rankCandidates {cands : List (String × ℚ)} {budget : ℚ}
    {r : Recommendation} (hr : r ∈ rankCandidates cands budget) :
    ∃ cp ∈ cands, ∃ cd, econLookup cp.1 = some cd ∧
      r = mkRecommendation budget cp.1 cp.2 cd := by
  have hr' : r ∈ candidateRecs cands budget := by
    rcases List.mem_append.mp hr with h | h
    · exact (List.mem_filter.mp (mem_sortDesc.mp h)).1
    · exact (List.mem_filter.mp h).1
  rcases List.mem_filterMap.mp hr' with ⟨cp, hcp, hmap⟩
  rcases Option.map_eq_some'.mp hmap with ⟨cd, hcd, hrec⟩
  exact ⟨cp, hcp, cd, hcd, hrec.symm⟩


/-! Evaluation lemmas for keyed-row access into the reference store. -/

lemma econLookup_rice : econLookup "rice" = some ⟨"rice", 32000, 6, 2500, "cereal", "Kharif", "High"⟩ := by rfl

lemma econLookup_maize : econLookup "maize" = some ⟨"maize", 22000, 11/2, 2000, "cereal", "Kharif", "Medium"⟩ := by rfl

lemma econLookup_chickpea : econLookup "chickpea" = some ⟨"chickpea", 18000, 3/2, 5000, "legume", "Rabi", "Low"⟩ := by rfl

lemma econLookup_kidneybeans : econLookup "kidneybeans" = some ⟨"kidneybeans", 20000, 9/5, 4800, "legume", "Kharif", "Medium"⟩ := by rfl

lemma econLookup_pigeonpeas : econLookup "pigeonpeas" = some ⟨"pigeonpeas", 21000, 2, 4500, "legume", "Kharif", "Low"⟩ := by rfl

lemma econLookup_mothbeans : econLookup "mothbeans" = some ⟨"mothbeans", 17000, 6/5, 4000, "legume", "Kharif", "Low"⟩ := by rfl

lemma econLookup_mungbean : econLookup "mungbean" = some ⟨"mungbean", 18500, 7/5, 5200, "legume", "Kharif", "Low"⟩ := by rfl

lemma econLookup_blackgram : econLookup "blackgram" = some ⟨"blackgram", 19000, 13/10, 5100, "legume", "Kharif", "Low"⟩ := by rfl

lemma econLookup_lentil : econLookup "lentil" = some ⟨"lentil", 17500, 11/10, 4900, "legume", "Rabi", "Low"⟩ := by rfl

lemma econLookup_pomegranate : econLookup "pomegranate" = some ⟨"pomegranate", 60000, 15, 8000, "fruit", "Year-round", "Medium"⟩ := by rfl

lemma econLookup_banana : econLookup "banana" = some ⟨"banana", 75000, 50, 1500, "fruit", "Year-round", "High"⟩ := by rfl

lemma econLookup_mango : econLookup "mango" = some ⟨"mango", 80000, 12, 3000, "fruit", "Year-round", "Medium"⟩ := by rfl

lemma econLookup_grapes : econLookup "grapes" = some ⟨"grapes", 150000, 20, 4000, "fruit", "Year-round", "Medium"⟩ := by rfl

lemma econLookup_watermelon : econLookup "watermelon" = some ⟨"watermelon", 25000, 30, 1200, "fruit", "Summer", "Medium"⟩ := by rfl

lemma econLookup_muskmelon : econLookup "muskmelon" = some ⟨"muskmelon", 26000, 28, 1500, "fruit", "Summer", "Medium"⟩ := by rfl

lemma econLookup_apple : econLookup "apple" = some ⟨"apple", 180000, 25, 6000, "fruit", "Year-round", "Medium"⟩ := by rfl

lemma econLookup_orange : econLookup "orange" = some ⟨"orange", 70000, 22, 2500, "fruit", "Year-round", "Medium"⟩ := by rfl

lemma econLookup_papaya : econLookup "papaya" = some ⟨"papaya", 55000, 40, 1800, "fruit", "Year-round", "Medium"⟩ := by rfl

lemma econLookup_coconut : econLookup "coconut" = some ⟨"coconut", 90000, 10, 3500, "fruit", "Year-round", "High"⟩ := by rfl

lemma econLookup_cotton : econLookup "cotton" = some ⟨"cotton", 24500, 5/2, 6000, "fiber", "Kharif", "Medium"⟩ := by rfl

lemma econLookup_jute : econLookup "jute" = some ⟨"jute", 23000, 11/5, 3000, "fiber", "Kharif", "High"⟩ := by rfl

lemma econLookup_coffee : econLookup "coffee" = some ⟨"coffee", 120000, 1, 15000, "beverage", "Year-round", "High"⟩ := by rfl

/-- Evaluation of the ranking on a singleton `rice` candidate list with budget
100000, for any classifier probability. -/
lemma rankCandidates_rice_eval (prob : ℚ) :
    rankCandidates [("rice", prob)] 100000 =
      [{ crop := "rice", agronomic_score := prob, estimated_cost := 32000,
         estimated_profit := some 118000, profit_margin := 236/3,
         status := .Recommended, growing_season := "Kharif",
         water_requirement := "High" }] := by
  norm_num [rankCandidates, candidateRecs, List.filterMap_cons, econLookup_rice,
    mkRecommendation, sortDesc, insertDesc, isRec]

/-! ## Claim theorems -/

/-- C1: every entry produced by the Economic Ranking Engine for a crop present
in the Economic Reference Store has status `Recommended` iff its cultivation
cost is ≤ the budget; every non-Recommended entry has status
`OverBudget (cost − budget)`, profit margin 0 and unavailable estimated
profit; every Recommended entry's profit margin is
`(revenue − cost) / revenue × 100` for `revenue = yield × price × 10`, or 0
when the revenue is not positive. -/
theorem economic_ranking_status_margin (cands : List (String × ℚ)) (budget : ℚ)
    (r : Recommendation) (hr : r ∈ rankCandidates cands budget) :
    (r.status = Status.Recommended ↔ r.estimated_cost ≤ budget) ∧
    (r.status ≠ Status.Recommended →
      r.status = Status.OverBudget (r.estimated_cost - budget) ∧
      r.profit_margin = 0 ∧ r.estimated_profit = none) ∧
    (r.status = Status.Recommended →
      ∃ cd, econLookup r.crop = some cd ∧ r.estimated_cost = cd.cost ∧
        r.profit_margin =
          (if cd.yieldVal * cd.price * 10 > 0
           then (cd.yieldVal * cd.price * 10 - cd.cost) / (cd.yieldVal * cd.price * 10) * 100
           else 0)) := by
  obtain ⟨cp, _hcp, cd, hcd, rfl⟩ := mem_rankCandidates hr
  by_cases h : cd.cost ≤ budget
  · refine ⟨by simp [mkRecommendation, h], by simp [mkRecommendation, h], ?_⟩
    intro _
    exact ⟨cd, hcd, by simp [mkRecommendation, h], by simp [mkRecommendation, h]⟩
  · refine ⟨by simp [mkRecommendation, h], ?_, by simp [mkRecommendation, h]⟩
    intro _
    simp [mkRecommendation, h]

/-- Witness for C1 at a concrete input: the `rice` entry produced for
candidate list `[("rice", 1/2)]` under budget 100000. -/
theorem economic_ranking_status_margin_witness :
    ({ crop := "rice", agronomic_score := 1/2, estimated_cost := 32000,
       estimated_profit := some 118000, profit_margin := 236/3,
       status := .Recommended, growing_season := "Kharif",
       water_requirement := "High" } : Recommendation).status = Status.Recommended ↔
    ({ crop := "rice", agronomic_score := 1/2, estimated_cost := 32000,
       estimated_profit := some 118000, profit_margin := 236/3,
       status := .Recommended, growing_season := "Kharif",
       water_requirement := "High" } : Recommendation).estimated_cost ≤ (100000 : ℚ) :=
  (economic_ranking_status_margin [("rice", 1/2)] 100000 _
    (by rw [rankCandidates_rice_eval]; exact List.mem_singleton_self _)).1

/-- C2: the Economic Ranking Engine's output is the Recommended entries sorted
descending by profit margin followed by the non-Recommended entries in their
original input order; the sort is stable (entries of equal margin keep their
input order); adjacent entries in the sorted Recommended prefix have
non-increasing margins; and entries whose crop is absent from the reference
store never appear. -/
theorem economic_ranking_ordering (cands : List (String × ℚ)) (budget : ℚ) :
    rankCandidates cands budget
      = sortDesc ((candidateRecs cands budget).filter isRec)
        ++ (candidateRecs cands budget).filter (fun r => !(isRec r)) ∧
    List.Chain' (fun a b => b.profit_margin ≤ a.profit_margin)
      (sortDesc ((candidateRecs cands budget).filter isRec)) ∧
    (∀ m : ℚ,
      (sortDesc ((candidateRecs cands budget).filter isRec)).filter
          (fun r => r.profit_margin == m)
        = ((candidateRecs cands budget).filter isRec).filter
            (fun r => r.profit_margin == m)) ∧
    (∀ r ∈ rankCandidates cands budget, (econLookup r.crop).isSome) := by
  refine ⟨rfl, chain'_sortDesc _, fun m => sortDesc_filter_margin _ m, ?_⟩
  intro r hr
  obtain ⟨cp, _hcp, cd, hcd, rfl⟩ := mem_rankCandidates hr
  simp [mkRecommendation, hcd]

/-- Witness for C2's quantified part at a concrete input: every entry produced
for `[("rice", 1/2), ("nosuchcrop", 1/4)]` names a crop of the reference
store. -/
theorem economic_ranking_ordering_witness :
    (rankCandidates [("rice", (1:ℚ)/2), ("nosuchcrop", (1:ℚ)/4)] 100000).all
      (fun r => (econLookup r.crop).isSome) = true := by
  have h := (economic_ranking_ordering [("rice", (1:ℚ)/2), ("nosuchcrop", (1:ℚ)/4)] 100000).2.2.2
  exact List.all_eq_true.mpr (fun r hr => h r hr)

/-- C3 (counterexample): a classifier output of length 23 ≠ 22 makes the
selection step fail, but `get_crop_recommendations` swallows the error in its
`except` handler and hands the caller the empty recommendation list — the
mismatch is silently replaced by a default result instead of propagating. -/
theorem invalid_distribution_defaulted_counterexample :
    (List.replicate 22 (0:ℚ) ++ [1]).length ≠ cropLabels.length ∧
    selectTop5 (List.replicate 22 (0:ℚ) ++ [1])
      = .error "y contains previously unseen labels" ∧
    get_crop_recommendations (List.replicate 22 (0:ℚ) ++ [1]) 100000 = [] :=
  ⟨by decide, by rfl, by rfl⟩

/-- C3 (amended): whenever the selection step fails, the error does not
propagate: `get_crop_recommendations` returns the empty list to its caller. -/
theorem selector_error_yields_empty_list (probs : List ℚ) (budget : ℚ)
    (e : String) (he : selectTop5 probs = .error e) :
    get_crop_recommendations probs budget = [] := by
  unfold get_crop_recommendations
  rw [he]

/-- Witness for the amended C3 at a concrete too-long probability vector. -/
theorem selector_error_yields_empty_list_witness :
    get_crop_recommendations (List.replicate 22 (0:ℚ) ++ [1]) 50000 = [] :=
  selector_error_yields_empty_list _ 50000 "y contains previously unseen labels" (by rfl)

/-- C4: evaluation of the Soil Treatment Rule Engine at the failing inputs.
A humidity (resp. temperature) value strictly below its range minimum takes
the `value < min` branch, whose `treatment_suggestions[param]` subscript has
no entry for these two parameters: the source raises `KeyError` instead of
emitting the low directive the specification promises. -/
theorem soil_treatment_low_humidity_keyerror :
    analyze_soil_treatment [("humidity", 30)] = .error "humidity" ∧
    analyze_soil_treatment [("temperature", 10)] = .error "temperature" :=
  ⟨by rfl, by rfl⟩

/-! ## Directives only arise from parameters present in the input -/

/-- The six parameter names known to the rule engine's range table. -/
def soilRuleParams : List String := ["N", "P", "K", "ph", "humidity", "temperature"]

lemma optimalRanges_isSome_iff (q : String) :
    (optimalRanges q).isSome ↔ q ∈ soilRuleParams := by
  unfold optimalRanges soilRuleParams
  split_ifs with h1 h2 h3 h4 h5 h6 <;> simp_all

lemma soilRuleParams_strUpper_inj :
    ∀ q ∈ soilRuleParams, ∀ c ∈ soilRuleParams, strUpper q = strUpper c → q = c := by
  intro q hq c hc h
  fin_cases hq <;> fin_cases hc <;> revert h <;> decide

/-- Every directive returned by the rule engine names (the uppercasing of) a
parameter present in the input whose range is known. -/
lemma analyze_soil_treatment_param_mem :
    ∀ (soil : List (String × ℚ)) (ts : List Treatment),
      analyze_soil_treatment soil = .ok ts → ∀ t ∈ ts,
        ∃ q v, (q, v) ∈ soil ∧ (optimalRanges q).isSome ∧ t.parameter = strUpper q := by
  intro soil
  induction soil with
  | nil =>
    intro ts h t ht
    rw [show analyze_soil_treatment [] = .ok [] from rfl] at h
    cases h
    cases ht
  | cons qv rest ih =>
    obtain ⟨q, v⟩ := qv
    intro ts h t ht
    unfold analyze_soil_treatment at h
    split at h
    · obtain ⟨q', v', hmem, hsome, hup⟩ := ih ts h t ht
      exact ⟨q', v', List.mem_cons_of_mem _ hmem, hsome, hup⟩
    · rename_i o hq
      split at h
      · split at h
        · cases h
        · rename_i sugg hsugg
          cases hrest : analyze_soil_treatment rest with
          | error e => rw [hrest] at h; cases h
          | ok ts' =>
            rw [hrest] at h
            rw [show consTreatment (mkTreatment q v o sugg.low) (.ok ts')
                  = .ok (mkTreatment q v o sugg.low :: ts') from rfl] at h
            cases h
            rcases List.mem_cons.mp ht with rfl | ht'
            · exact ⟨q, v, List.mem_cons_self _ _, by rw [hq]; rfl, rfl⟩
            · obtain ⟨q', v', hmem, hsome, hup⟩ := ih ts' hrest t ht'
              exact ⟨q', v', List.mem_cons_of_mem _ hmem, hsome, hup⟩
      · split at h
        · split at h
          · cases h
          · rename_i sugg hsugg
            cases hrest : analyze_soil_treatment rest with
            | error e => rw [hrest] at h; cases h
            | ok ts' =>
              rw [hrest] at h
              rw [show consTreatment (mkTreatment q v o sugg.high) (.ok ts')
                    = .ok (mkTreatment q v o sugg.high :: ts') from rfl] at h
              cases h
              rcases List.mem_cons.mp ht with rfl | ht'
              · exact ⟨q, v, List.mem_cons_self _ _, by rw [hq]; rfl, rfl⟩
              · obtain ⟨q', v', hmem, hsome, hup⟩ := ih ts' hrest t ht'
                exact ⟨q', v', List.mem_cons_of_mem _ hmem, hsome, hup⟩
        · obtain ⟨q', v', hmem, hsome, hup⟩ := ih ts h t ht
          exact ⟨q', v', List.mem_cons_of_mem _ hmem, hsome, hup⟩

/-- C5 (counterexample): with input `{"P": 50}` the parameter `N` is absent
and has no documented default, yet the feature row handed to the classifier
holds `0` in the `N` column — the absent parameter is silently coerced to
zero rather than treated as absent. -/
theorem absent_param_coerced_to_zero_counterexample :
    lookupParam [("P", (50:ℚ))] "N" = none ∧
    featureRow [("P", (50:ℚ))] = [0, 50, 0, 0, 0, 0, 0] := by
  decide

/-- C5 (amended): an absent parameter is skipped by the Soil Treatment Rule
Engine (no directive can mention it), but the classifier feature assembly
silently coerces it to `0`. -/
theorem absent_param_amended (soil : List (String × ℚ)) (c : String)
    (habs : lookupParam soil c = none) :
    (c ∈ expectedColumns → featureValue soil c = 0) ∧
    (c ∈ soilRuleParams → ∀ ts, analyze_soil_treatment soil = .ok ts →
      ∀ t ∈ ts, t.parameter ≠ strUpper c) := by
  constructor
  · intro _
    unfold featureValue
    rw [habs]
    rfl
  · intro hc ts hts t ht hup
    obtain ⟨q, v, hqv, hqsome, hqup⟩ := analyze_soil_treatment_param_mem soil ts hts t ht
    have hq : q ∈ soilRuleParams := (optimalRanges_isSome_iff q).mp hqsome
    have hqc : q = c := soilRuleParams_strUpper_inj q hq c hc (hqup ▸ hup)
    subst hqc
    have hnone : soil.find? (fun e => e.1 == q) = none := by
      unfold lookupParam at habs
      exact Option.map_eq_none'.mp habs
    have := List.find?_eq_none.mp hnone (q, v) hqv
    simp at this

/-- Witness for the amended C5: with input `{"P": 50}`, the absent `N` is
mapped to feature value 0. -/
theorem absent_param_amended_witness :
    featureValue [("P", (50:ℚ))] "N" = 0 :=
  (absent_param_amended [("P", (50:ℚ))] "N" (by decide)).1 (by decide)

/-! ## Rotation Planner: year ≥ 2 crop selection (C6) -/

/-- The year-`y` target crop type for a primary crop: the `y`-th entry of the
rotation sequence configured for its type. -/
def targetTypeOf (p : String) (y : ℕ) : String :=
  match econLookup p with
  | some cd => (rotationSequence cd.cropType).getD (y - 1) ""
  | none => ""

/-- Modelled from the spec's ordering words, as the comparator for the
refinement claim C6: "among the fixed candidate crops of the target type,
select the one maximizing profit = yield×price×10 − cost (ties broken by the
fixed candidate-list order; candidates missing from the reference store are
skipped)". -/
def specBest (t : String) : Option String :=
  ((cropByType t).foldl
    (fun acc c =>
      match econLookup c with
      | none => acc
      | some cd =>
        match acc with
        | none => some (c, profitOf cd)
        | some best => if best.2 < profitOf cd then some (c, profitOf cd) else some best)
    none).map (·.1)

/-- On each of the six crop types named by the rotation tables, the spec's
argmax and the source's strict-improvement loop select the same crop. -/
lemma specBest_eq_bestCrop :
    ∀ t ∈ ["legume", "vegetable", "cereal", "fruit", "fiber", "beverage"],
      specBest t = some (bestCrop (cropByType t)) := by
  intro t ht
  fin_cases ht <;>
  · simp [specBest, bestCrop, cropByType, profitOf, econLookup_chickpea, econLookup_lentil,
      econLookup_mungbean, econLookup_blackgram, econLookup_watermelon, econLookup_muskmelon,
      econLookup_papaya, econLookup_rice, econLookup_maize, econLookup_banana, econLookup_mango,
      econLookup_grapes, econLookup_orange, econLookup_cotton, econLookup_jute, econLookup_coffee]
    norm_num

/-- Every entry of a rotation sequence is one of the six known crop types. -/
lemma rotationSequence_mem_types :
    ∀ ct : String, ∀ x ∈ rotationSequence ct,
      x ∈ ["legume", "vegetable", "cereal", "fruit", "fiber", "beverage"] := by
  intro ct
  unfold rotationSequence
  split_ifs <;> decide

/-- C6: for every primary crop present in the reference store, the crop the
Rotation Planner selects for each year ≥ 2 is the profit-maximizing member of
the fixed candidate list of that year's target type (ties broken by list
order, store-absent candidates skipped). -/
theorem rotation_year_selection (p : String) (hp : (econLookup p).isSome) :
    ∀ step ∈ generate_rotation_plan p, 2 ≤ step.year →
      specBest (targetTypeOf p step.year) = some step.recommended_crop := by
  intro step hstep hy
  have hpne : p ≠ "" := by
    intro h
    rw [h, show econLookup "" = none from rfl] at hp
    simp at hp
  unfold generate_rotation_plan at hstep
  rw [if_neg hpne] at hstep
  split at hstep
  · cases hstep
  · rename_i cde hcde
    obtain ⟨⟨i, t⟩, hmem, rfl⟩ := List.mem_map.mp hstep
    have hyear : (mkRotationStep p cde.cropType (i + 1) t).year = i + 1 := rfl
    rw [hyear] at hy
    have hi : i ≠ 0 := by omega
    have hi1 : ¬ (i + 1 = 1) := by omega
    have hget : (rotationSequence cde.cropType)[i]? = some t :=
      List.mk_mem_enum_iff_getElem?.mp hmem
    have hgd : (rotationSequence cde.cropType).getD i "" = t := by
      rw [List.getD_eq_getElem?_getD, hget]
      rfl
    have htmem : t ∈ ["legume", "vegetable", "cereal", "fruit", "fiber", "beverage"] :=
      rotationSequence_mem_types cde.cropType t (List.getElem?_mem hget)
    have hcrop : (mkRotationStep p cde.cropType (i + 1) t).recommended_crop
        = bestCrop (cropByType t) := by
      simp [mkRotationStep, hi1]
    rw [hcrop, hyear]
    unfold targetTypeOf
    rw [hcde]
    simp only [Nat.add_sub_cancel]
    rw [hgd]
    exact specBest_eq_bestCrop t htmem

/-- Evaluation of the rotation plan for primary crop `rice`. -/
lemma generate_rotation_plan_rice_eval :
    generate_rotation_plan "rice" = [
      ⟨1, "Kharif", "rice", "cereal", benefitsMap "cereal", 118000⟩,
      ⟨2, "Rabi", "papaya", "vegetable", benefitsMap "vegetable", 665000⟩,
      ⟨3, "Kharif", "rice", "cereal", benefitsMap "cereal", 118000⟩] := by
  simp [generate_rotation_plan, econLookup_rice, econLookup_watermelon, econLookup_muskmelon,
    econLookup_papaya, econLookup_maize, rotationSequence, List.enum, List.enumFrom,
    mkRotationStep, bestCrop, cropByType, profitOf]
  norm_num [econLookup_rice, econLookup_papaya]

/-- Witness for C6: in the rice plan, the year-2 selection (`papaya`) is the
spec's argmax for the year-2 target type. -/
theorem rotation_year_selection_witness :
    specBest (targetTypeOf "rice" 2) = some "papaya" :=
  rotation_year_selection "rice" (by rw [econLookup_rice]; rfl)
    ⟨2, "Rabi", "papaya", "vegetable", benefitsMap "vegetable", 665000⟩
    (by rw [generate_rotation_plan_rice_eval]
        exact List.mem_cons_of_mem _ (List.mem_cons_self _ _))
    (by norm_num)

/-- C7: a crop absent from the reference store yields an empty plan; otherwise
the plan starts with year 1 recommending the primary crop verbatim, has the
configured sequence length (3), alternates Kharif (odd years) / Rabi (even
years), and never reports a negative estimated profit. -/
theorem rotation_plan_shape (p : String) :
    (econLookup p = none → generate_rotation_plan p = []) ∧
    (∀ cd, econLookup p = some cd →
      (generate_rotation_plan p).length = (rotationSequence cd.cropType).length ∧
      (rotationSequence cd.cropType).length = 3 ∧
      (∃ s rest, generate_rotation_plan p = s :: rest ∧ s.year = 1 ∧
        s.recommended_crop = p) ∧
      (∀ step ∈ generate_rotation_plan p,
        step.season = (if step.year % 2 = 1 then "Kharif" else "Rabi") ∧
        0 ≤ step.estimated_profit)) := by
  constructor
  · intro h
    unfold generate_rotation_plan
    by_cases hp : p = ""
    · rw [if_pos hp]
    · rw [if_neg hp, h]
  · intro cd hcd
    have hpne : p ≠ "" := by
      intro h
      rw [h, show econLookup "" = none from rfl] at hcd
      cases hcd
    have hplan : generate_rotation_plan p
        = (rotationSequence cd.cropType).enum.map
            (fun it => mkRotationStep p cd.cropType (it.1 + 1) it.2) := by
      unfold generate_rotation_plan
      rw [if_neg hpne, hcd]
    obtain ⟨t1, t2, t3, hseq⟩ :
        ∃ t1 t2 t3, rotationSequence cd.cropType = [t1, t2, t3] := by
      unfold rotationSequence
      split_ifs <;> exact ⟨_, _, _, rfl⟩
    rw [hplan, hseq]
    refine ⟨?_, ?_, ?_, ?_⟩
    · simp [List.enum, List.enumFrom]
    · rfl
    · exact ⟨_, _, rfl, rfl, rfl⟩
    · intro step hstep
      simp only [List.enum, List.enumFrom, List.map_cons, List.map_nil,
        List.mem_cons, List.not_mem_nil, or_false] at hstep
      rcases hstep with rfl | rfl | rfl <;> exact ⟨by simp [mkRotationStep], le_max_left 0 _⟩

/-- Witness for C7: the empty plan for an unknown crop, and the length-3 plan
for `rice`. -/
theorem rotation_plan_shape_witness :
    generate_rotation_plan "nosuchcrop" = [] ∧
    (generate_rotation_plan "rice").length = 3 := by
  constructor
  · exact (rotation_plan_shape "nosuchcrop").1 (by rfl)
  · have h := (rotation_plan_shape "rice").2
      ⟨"rice", 32000, 6, 2500, "cereal", "Kharif", "High"⟩ econLookup_rice
    exact h.1.trans h.2.1

/-- C8: the weather alert is decided by the first matching rule in the fixed
priority order heat, cold, drainage, irrigation; in particular an average
maximum temperature of 38 always yields the heat warning, whatever the
rainfall.  (An empty forecast is excluded: there the source computes NaN
averages.) -/
theorem weather_alert_priority (fc : List ForecastDay) (soil : List (String × ℚ))
    (hfc : fc ≠ []) :
    (generate_crop_advisory fc soil).weather_alert =
      (if avgTempMax fc > 35 then some heatAlertMsg
       else if avgTempMax fc < 15 then some coldAlertMsg
       else if totalRainfall fc > 100 then some drainageAlertMsg
       else if totalRainfall fc < 10 then some irrigationAlertMsg
       else none) ∧
    (avgTempMax fc = 38 →
      (generate_crop_advisory fc soil).weather_alert = some heatAlertMsg) := by
  refine ⟨rfl, ?_⟩
  intro h38
  have h35 : avgTempMax fc > 35 := by rw [h38]; norm_num
  simp [generate_crop_advisory, h35]

/-- Witness for C8 at a one-day forecast with maximum temperature 38. -/
theorem weather_alert_priority_witness :
    (generate_crop_advisory [⟨38, 20, 0, 50⟩] []).weather_alert = some heatAlertMsg := by
  have h38 : avgTempMax [⟨38, 20, 0, 50⟩] = 38 := by
    simp [avgTempMax]
  exact (weather_alert_priority _ _ (by simp)).2 h38

/-! ## Suitability & Cost Estimator (C9, C10) -/

/-- The three score buckets named by the specification. -/
def subScoreInBuckets (s : ℚ) : Prop :=
  (90 ≤ s ∧ s ≤ 95) ∨ (75 ≤ s ∧ s ≤ 80) ∨ (50 ≤ s ∧ s ≤ 60)

/-- C9 (counterexample): for the candidate `rice` with agronomic probability
1/3, `analyze_crop` reports suitability 33.33 — the probability × 100 rounded
to two decimals by the percent-format round trip — which differs from the
claimed probability × 100 = 100/3. -/
theorem analyze_crop_score_rounded_counterexample :
    analyzeCropScore "rice" [] [("rice", (1:ℚ)/3)] = 3333/100 ∧
    ((3333:ℚ)/100 ≠ ((1:ℚ)/3) * 100) := by
  have hfind : findSelected "rice" [("rice", (1:ℚ)/3)]
      = some ⟨"rice", (1:ℚ)/3, 32000, some 118000, 236/3, .Recommended, "Kharif", "High"⟩ := by
    unfold findSelected
    rw [rankCandidates_rice_eval]
    rfl
  constructor
  · unfold analyzeCropScore
    rw [hfind]
    norm_num [percent2, roundHalfEven]
  · norm_num

/-- C9 (amended): the suitability score equals the found entry's probability
× 100 rounded to two decimal places; when the crop is not found it is the
unweighted mean of the five parameter sub-scores, each of which always lies
in one of the buckets 90–95 / 75–80 / 50–60; and the crop counts as suitable
exactly when the score is at least 60. -/
theorem analyze_crop_scoring (cropName : String) (soil : List (String × ℚ))
    (cands : List (String × ℚ)) :
    (∀ r, findSelected cropName cands = some r →
      analyzeCropScore cropName soil cands = percent2 r.agronomic_score) ∧
    (findSelected cropName cands = none →
      analyzeCropScore cropName soil cands =
        (bucketN ((lookupParam soil "N").getD 60)
         + bucketP ((lookupParam soil "P").getD 45)
         + bucketK ((lookupParam soil "K").getD 60)
         + bucketPh ((lookupParam soil "ph").getD (13/2))
         + bucketTemp ((lookupParam soil "temperature").getD 25)) / 5) ∧
    (∀ v : ℚ, subScoreInBuckets (bucketN v) ∧ subScoreInBuckets (bucketP v) ∧
      subScoreInBuckets (bucketK v) ∧ subScoreInBuckets (bucketPh v) ∧
      subScoreInBuckets (bucketTemp v)) ∧
    (analyzeCropSuitable cropName soil cands = true ↔
      60 ≤ analyzeCropScore cropName soil cands) := by
  refine ⟨?_, ?_, ?_, ?_⟩
  · intro r hr
    unfold analyzeCropScore
    rw [hr]
  · intro h
    unfold analyzeCropScore
    rw [h]
    exact rfl
  · intro v
    refine ⟨?_, ?_, ?_, ?_, ?_⟩ <;>
    · simp only [subScoreInBuckets, bucketN, bucketP, bucketK, bucketPh, bucketTemp]
      split_ifs <;> norm_num
  · unfold analyzeCropSuitable
    exact decide_eq_true_iff

/-- Witness for the amended C9: with no candidates the fallback path is taken
and the defaulted parameters give score (90+90+90+95+90)/5 = 91. -/
theorem analyze_crop_scoring_witness :
    analyzeCropScore "papaya" [] [] =
      (bucketN 60 + bucketP 45 + bucketK 60 + bucketPh (13/2) + bucketTemp 25) / 5 :=
  (analyze_crop_scoring "papaya" [] []).2.1 (by rfl)

/-- C10: the lookup of the selected crop among the ranked recommendations is
case-insensitive — an entry is used exactly when its crop name equals the
requested name after lowercasing both — and a found entry routes the analysis
through the probability-based score, while no match routes it to the
parameter-threshold fallback. -/
theorem analyze_crop_lookup_case_insensitive (cropName : String)
    (soil : List (String × ℚ)) (cands : List (String × ℚ)) :
    (∀ r, findSelected cropName cands = some r →
      r ∈ rankCandidates cands 100000 ∧ strLower r.crop = strLower cropName ∧
      analyzeCropScore cropName soil cands = percent2 r.agronomic_score) ∧
    (findSelected cropName cands = none →
      (∀ r ∈ rankCandidates cands 100000, strLower r.crop ≠ strLower cropName) ∧
      analyzeCropScore cropName soil cands = fallbackScore soil) := by
  constructor
  · intro r hr
    refine ⟨List.mem_of_find?_eq_some hr, ?_, ?_⟩
    · have h := List.find?_some hr
      simpa using h
    · unfold analyzeCropScore
      rw [hr]
  · intro h
    constructor
    · intro r hrmem heq
      have hnone := List.find?_eq_none.mp h r hrmem
      simp [heq] at hnone
    · unfold analyzeCropScore
      rw [h]

/-- Witness for C10: requesting `RICE` matches the ranked `rice` entry, so the
probability path is taken. -/
theorem analyze_crop_lookup_case_insensitive_witness :
    analyzeCropScore "RICE" [] [("rice", (1:ℚ)/2)] = percent2 ((1:ℚ)/2) := by
  have h := (analyze_crop_lookup_case_insensitive "RICE" [] [("rice", (1:ℚ)/2)]).1
    { crop := "rice", agronomic_score := (1:ℚ)/2, estimated_cost := 32000,
      estimated_profit := some 118000, profit_margin := 236/3,
      status := .Recommended, growing_season := "Kharif",
      water_requirement := "High" }
    (by unfold findSelected
        rw [rankCandidates_rice_eval]
        rfl)
  exact h.2.2
